import Mathlib

/-!
Shallow embedding of the Express products API (routes/products.js,
middleware/auth.js, middleware/validation.js, utils/errors.js, server.js).

JavaScript values that reach the validators are modelled by `JSVal`
(strings, numbers as exact rationals, booleans, null; an absent field is
`Option.none`).  Stored products are modelled at their schema types.
-/

/-- A JavaScript value as it appears in a request body.  Numbers are
modelled as exact rationals (the JS float rounding of short decimal
numerals is irrelevant to every property checked here). -/
inductive JSVal where
  | str (s : String)
  | num (x : ℚ)
  | bool (b : Bool)
  | null
deriving DecidableEq, Repr

/-- JavaScript truthiness of a value (undefined, i.e. an absent field, is
handled by the callers via `Option`). -/
def jsTruthy : JSVal → Bool
  | .str s => !(s == "")
  | .num x => !(x == 0)
  | .bool b => b
  | .null => false

/-- Models `typeof v === "string"`. -/
def isStringVal : JSVal → Bool
  | .str _ => true
  | _ => false

/-- Models `typeof v === "boolean"` (note `typeof null` is "object"). -/
def isBoolVal : JSVal → Bool
  | .bool _ => true
  | _ => false

/-- The underlying string of a string value; callers only use it after an
`isStringVal` check, mirroring the short-circuit order of the source. -/
def strOfJS : JSVal → String
  | .str s => s
  | _ => ""

/-- Models `String.prototype.toLowerCase` (ASCII letters; the seed data and
all strings relevant to the claims are ASCII). -/
def lowerStr (s : String) : String := String.mk (s.toList.map Char.toLower)

/-- Helper for `trimStr`: drops whitespace from both ends of a char list. -/
def trimChars (cs : List Char) : List Char :=
  ((cs.dropWhile Char.isWhitespace).reverse.dropWhile Char.isWhitespace).reverse

/-- Models `String.prototype.trim`. -/
def trimStr (s : String) : String := String.mk (trimChars s.toList)

/-- Numeric value of a list of decimal digits. -/
def natOfDigits (cs : List Char) : Nat := cs.foldl (fun n c => n * 10 + (c.toNat - 48)) 0

/-- Splits a char list at the first dot, if any. -/
def splitDot : List Char → List Char × Option (List Char)
  | [] => ([], none)
  | c :: rest =>
    if c = '.' then ([], some rest)
    else
      let p := splitDot rest
      (c :: p.1, p.2)

/-- Parses an unsigned decimal numeral (digits, optionally with one dot;
at least one digit overall), as JavaScript accepts for plain decimal
number literals.  Exponent, hex and Infinity forms are not modelled; no
claim depends on them. -/
def parseUnsigned (cs : List Char) : Option ℚ :=
  let p := splitDot cs
  match p.2 with
  | none => if cs ≠ [] ∧ cs.all Char.isDigit then some (natOfDigits cs) else none
  | some frac =>
    if (p.1 ≠ [] ∨ frac ≠ []) ∧ p.1.all Char.isDigit ∧ frac.all Char.isDigit then
      some ((natOfDigits p.1 : ℚ) + (natOfDigits frac : ℚ) / (10 : ℚ) ^ frac.length)
    else none

/-- Parses an optionally signed decimal numeral. -/
def parseDec (s : String) : Option ℚ :=
  match s.toList with
  | '-' :: rest => (parseUnsigned rest).map (fun q => -q)
  | '+' :: rest => parseUnsigned rest
  | _ => parseUnsigned s.toList

/-- Models the `Number(v)` coercion used by `isNaN(v)`; `none` stands for
NaN.  The empty (or all-whitespace) string coerces to 0, booleans to 0/1,
null to 0. -/
def jsToNumber : JSVal → Option ℚ
  | .num x => some x
  | .str s => if trimStr s == "" then some 0 else parseDec (trimStr s)
  | .bool _b => some (if _b then 1 else 0)
  | .null => some 0

/-- Models `parseFloat(v)`; `none` stands for NaN.  `parseFloat` first
converts its argument to a string, so booleans and null give NaN.  The
validators only consult it after `isNaN` has ruled out non-numeral
strings, where the prefix-parsing of `parseFloat` agrees with a full
parse. -/
def jsParseFloat : JSVal → Option ℚ
  | .num x => some x
  | .str s => parseDec (trimStr s)
  | .bool _ => none
  | .null => none

/-- A stored product record (routes/products.js, the in-memory array). -/
structure Product where
  id : String
  name : String
  description : String
  price : ℚ
  category : String
  inStock : Bool
deriving DecidableEq, Repr

/-- First seed product. -/
def product1 : Product :=
  { id := "1", name := "Laptop", description := "High-performance gaming laptop",
    price := 1299.99, category := "Electronics", inStock := true }

/-- Second seed product. -/
def product2 : Product :=
  { id := "2", name := "Coffee Mug", description := "Ceramic coffee mug with handle",
    price := 12.99, category := "Kitchen", inStock := true }

/-- Third seed product. -/
def product3 : Product :=
  { id := "3", name := "Desk Lamp", description := "LED desk lamp with adjustable brightness",
    price := 34.99, category := "Home", inStock := false }

/-- The seed collection loaded at process start. -/
def seedProducts : List Product := [product1, product2, product3]

/-- A request body as seen by the validators: each schema field either
absent or some JavaScript value. -/
structure ReqBody where
  name : Option JSVal := none
  description : Option JSVal := none
  price : Option JSVal := none
  category : Option JSVal := none
  inStock : Option JSVal := none
deriving DecidableEq, Repr

/-- Create-validation failure condition for a required string field:
`!v || typeof v !== "string" || v.trim().length === 0`. -/
def badStrCreate (v : Option JSVal) : Bool :=
  match v with
  | none => true
  | some w => !jsTruthy w || !isStringVal w || trimStr (strOfJS w) == ""

/-- Create-validation failure condition for the price field:
`!price || isNaN(price) || parseFloat(price) <= 0` (NaN compares false
with 0, so a NaN result of `parseFloat` does not trigger the last test). -/
def badPriceCreate (v : Option JSVal) : Bool :=
  match v with
  | none => true
  | some w => !jsTruthy w || (jsToNumber w).isNone ||
      (match jsParseFloat w with
       | some x => decide (x ≤ 0)
       | none => false)

/-- Detail message for a missing or bad create name. -/
def nameReqMsg : String := "Name is required and must be a non-empty string"

/-- Detail message for a missing or bad create description. -/
def descReqMsg : String := "Description is required and must be a non-empty string"

/-- Detail message for a missing or bad create price. -/
def priceReqMsg : String := "Price is required and must be a positive number"

/-- Detail message for a missing or bad create category. -/
def catReqMsg : String := "Category is required and must be a non-empty string"

/-- The detail list accumulated by `validateProduct`
(middleware/validation.js): each failing field appends its message, in
source order, with no short-circuit between fields. -/
def validateProduct (b : ReqBody) : List String :=
  (if badStrCreate b.name then [nameReqMsg] else []) ++
  (if badStrCreate b.description then [descReqMsg] else []) ++
  (if badPriceCreate b.price then [priceReqMsg] else []) ++
  (if badStrCreate b.category then [catReqMsg] else [])

/-- Update-validation failure condition for an optional string field:
`v && (typeof v !== "string" || v.trim().length === 0)`.  A falsy present
value (for instance the empty string) skips the check entirely. -/
def badStrUpdate (v : Option JSVal) : Bool :=
  match v with
  | none => false
  | some w => jsTruthy w && (!isStringVal w || trimStr (strOfJS w) == "")

/-- Update-validation failure condition for the price field:
`price && (isNaN(price) || parseFloat(price) <= 0)`.  A falsy present
value (the number 0, or the empty string) skips the check entirely. -/
def badPriceUpdate (v : Option JSVal) : Bool :=
  match v with
  | none => false
  | some w => jsTruthy w && ((jsToNumber w).isNone ||
      (match jsParseFloat w with
       | some x => decide (x ≤ 0)
       | none => false))

/-- Update-validation failure condition for inStock:
`inStock !== undefined && typeof inStock !== "boolean"`. -/
def badStockUpdate (v : Option JSVal) : Bool :=
  match v with
  | none => false
  | some w => !isBoolVal w

/-- Detail message for a bad update name. -/
def nameUpdMsg : String := "Name must be a non-empty string"

/-- Detail message for a bad update description. -/
def descUpdMsg : String := "Description must be a non-empty string"

/-- Detail message for a bad update price. -/
def priceUpdMsg : String := "Price must be a positive number"

/-- Detail message for a bad update category. -/
def catUpdMsg : String := "Category must be a non-empty string"

/-- Detail message for a non-boolean update inStock. -/
def stockUpdMsg : String := "inStock must be a boolean"

/-- The detail list accumulated by `validateProductUpdate`
(middleware/validation.js). -/
def validateProductUpdate (b : ReqBody) : List String :=
  (if badStrUpdate b.name then [nameUpdMsg] else []) ++
  (if badStrUpdate b.description then [descUpdMsg] else []) ++
  (if badPriceUpdate b.price then [priceUpdMsg] else []) ++
  (if badStrUpdate b.category then [catUpdMsg] else []) ++
  (if badStockUpdate b.inStock then [stockUpdMsg] else [])

/-- Outcome of a validation middleware: pass to the next handler, or fail
with a status, message and detail list. -/
inductive MwResult where
  | pass
  | fail (status : Nat) (msg : String) (details : List String)
deriving DecidableEq, Repr

/-- The create-validation middleware as a whole: forwards a 400
"Validation failed" error carrying all accumulated details when the list
is non-empty, otherwise calls `next()`. -/
def runValidateProduct (b : ReqBody) : MwResult :=
  match validateProduct b with
  | [] => .pass
  | e :: es => .fail 400 "Validation failed" (e :: es)

/-- The update-validation middleware as a whole. -/
def runValidateProductUpdate (b : ReqBody) : MwResult :=
  match validateProductUpdate b with
  | [] => .pass
  | e :: es => .fail 400 "Validation failed" (e :: es)

/-- Outcome of the authentication middleware. -/
inductive AuthResult where
  | ok
  | err (status : Nat) (msg : String)
deriving DecidableEq, Repr

/-- The configured secret: `process.env.API_KEY || "secret-key-123"`
(an empty environment value is falsy and falls back to the default). -/
def configuredKey (env : Option String) : String :=
  match env with
  | none => "secret-key-123"
  | some v => if v == "" then "secret-key-123" else v

/-- The `authenticate` middleware (middleware/auth.js): a falsy header
value (absent, or the empty string) gives 401 "API key is required"; a
truthy value different from the configured secret gives 401
"Invalid API key"; the secret itself passes with no side effect. -/
def authenticate (env : Option String) (apiKey : Option String) : AuthResult :=
  match apiKey with
  | none => .err 401 "API key is required"
  | some k =>
    if k == "" then .err 401 "API key is required"
    else if !(k == configuredKey env) then .err 401 "Invalid API key"
    else .ok

/-- Query parameters of GET /api/products, all raw strings as Express
delivers them (`page` and `limit` are given after `parseInt`, with `none`
for an absent parameter or a NaN parse result). -/
structure ListQuery where
  category : Option String := none
  inStock : Option String := none
  page : Option Int := none
  limit : Option Int := none

/-- Models `parseInt(x) || d`: an absent or NaN parameter, or a parse
result of 0, falls back to the default. -/
def orDefault (v : Option Int) (d : Int) : Int :=
  match v with
  | none => d
  | some n => if n == 0 then d else n

/-- Clamps one index the way `Array.prototype.slice` does: a negative
index counts from the end (not below 0), a non-negative one is capped at
the length. -/
def clampIdx (len : Nat) (i : Int) : Nat :=
  if i < 0 then ((len : Int) + i).toNat else min i.toNat len

/-- Models `Array.prototype.slice(a, b)`: the elements from the clamped
start index (inclusive) to the clamped end index (exclusive). -/
def jsSlice (l : List α) (a b : Int) : List α :=
  (l.drop (clampIdx l.length a)).take (clampIdx l.length b - clampIdx l.length a)

/-- The category filter step of the list handler:
`if (req.query.category) filter(p => p.category.toLowerCase() === req.query.category.toLowerCase())`.
An absent or empty (falsy) parameter leaves the collection unchanged. -/
def applyCategoryFilter (qcat : Option String) (ps : List Product) : List Product :=
  match qcat with
  | none => ps
  | some c =>
    if c == "" then ps
    else ps.filter (fun p => lowerStr p.category == lowerStr c)

/-- The inStock filter step of the list handler:
`if (req.query.inStock) { const b = req.query.inStock === "true"; filter(p => p.inStock === b) }`. -/
def applyStockFilter (qstock : Option String) (ps : List Product) : List Product :=
  match qstock with
  | none => ps
  | some s =>
    if s == "" then ps
    else ps.filter (fun p => p.inStock == (s == "true"))

/-- The combined filter predicate the two steps amount to. -/
def listPred (q : ListQuery) (p : Product) : Bool :=
  (match q.category with
   | none => true
   | some c => c == "" || lowerStr p.category == lowerStr c) &&
  (match q.inStock with
   | none => true
   | some s => s == "" || p.inStock == (s == "true"))

/-- The response record of GET /api/products. -/
structure ListResult where
  total : Nat
  page : Int
  limit : Int
  totalPages : Int
  data : List Product
deriving Repr

/-- The GET /api/products handler (routes/products.js): filter by
category, then by inStock, then paginate with
`startIndex = (page - 1) * limit`, `endIndex = startIndex + limit`,
`totalPages = Math.ceil(total / limit)` and `data = slice(start, end)`. -/
def listHandler (q : ListQuery) (ps : List Product) : ListResult :=
  let filtered := applyStockFilter q.inStock (applyCategoryFilter q.category ps)
  let page := orDefault q.page 1
  let limit := orDefault q.limit 10
  let startIndex := (page - 1) * limit
  let endIndex := startIndex + limit
  { total := filtered.length
    page := page
    limit := limit
    totalPages := ⌈(filtered.length : ℚ) / (limit : ℚ)⌉
    data := jsSlice filtered startIndex endIndex }

/-- The GET /api/products/:id handler: linear scan for the first exact id
match, else a thrown error with statusCode 404. -/
def getProductById (ps : List Product) (pid : String) : Except (Nat × String) Product :=
  match ps.find? (fun p => p.id == pid) with
  | some p => .ok p
  | none => .error (404, "Product not found")

/-- The product built by the POST handler from a validated body: the
generated id, the raw name/description/category strings, `parseFloat` of
the price and `Boolean(req.body.inStock)`.  Validation guarantees the
string fields are strings and the price a numeral or positive number;
`getD` supplies the (unreachable after validation) fallbacks. -/
def mkProduct (newId : String) (b : ReqBody) : Product :=
  { id := newId
    name := strOfJS (b.name.getD JSVal.null)
    description := strOfJS (b.description.getD JSVal.null)
    price := (jsParseFloat (b.price.getD JSVal.null)).getD 0
    category := strOfJS (b.category.getD JSVal.null)
    inStock := match b.inStock with | some v => jsTruthy v | none => false }

/-- The POST /api/products handler: build the record with a fresh
`uuidv4()` identifier (passed here as `newId`), push it at the end, and
answer with the stored record. -/
def createProduct (ps : List Product) (newId : String) (b : ReqBody) : List Product × Product :=
  let p := mkProduct newId b
  (ps ++ [p], p)

/-- An update request body for the merge step, at schema types (the
validators have been applied on the `JSVal` level before the handler
runs).  The `id` field models a caller trying to smuggle a different
identifier through the body spread. -/
structure UpdatePatch where
  id : Option String := none
  name : Option String := none
  description : Option String := none
  price : Option ℚ := none
  category : Option String := none
  inStock : Option Bool := none
deriving DecidableEq, Repr

/-- The merge `{...old, ...req.body, id: req.params.id}`: every present
patch field overwrites, absent ones are retained, and the id is written
last from the route parameter, so a patch id is always discarded. -/
def applyPatch (old : Product) (pid : String) (b : UpdatePatch) : Product :=
  { id := pid
    name := b.name.getD old.name
    description := b.description.getD old.description
    price := b.price.getD old.price
    category := b.category.getD old.category
    inStock := b.inStock.getD old.inStock }

/-- The PUT /api/products/:id handler: `findIndex` on the id, 404 if
absent, otherwise replace in place at the found index and answer with the
merged record. -/
def updateList (ps : List Product) (pid : String) (b : UpdatePatch) :
    Except (Nat × String) (List Product × Product) :=
  match ps with
  | [] => .error (404, "Product not found")
  | p :: rest =>
    if p.id == pid then
      let merged := applyPatch p pid b
      .ok (merged :: rest, merged)
    else
      match updateList rest pid b with
      | .ok (rest2, merged) => .ok (p :: rest2, merged)
      | .error e => .error e

/-- The DELETE /api/products/:id handler: `findIndex` on the id, 404 if
absent, otherwise `splice` out the entry and answer with it. -/
def deleteList (ps : List Product) (pid : String) :
    Except (Nat × String) (List Product × Product) :=
  match ps with
  | [] => .error (404, "Product not found")
  | p :: rest =>
    if p.id == pid then .ok (rest, p)
    else
      match deleteList rest pid with
      | .ok (rest2, d) => .ok (p :: rest2, d)
      | .error e => .error e

/-- Decides whether `needle` occurs as a contiguous run inside `hay`,
modelling `String.prototype.includes` on the char level. -/
def containsSub (hay needle : List Char) : Bool :=
  needle.isPrefixOf hay ||
    match hay with
    | [] => false
    | _ :: t => containsSub t needle

/-- The match predicate of the search handler: the lowercased query occurs
in the lowercased name or the lowercased description. -/
def searchMatch (query : String) (p : Product) : Bool :=
  containsSub (lowerStr p.name).toList query.toList ||
    containsSub (lowerStr p.description).toList query.toList

/-- Response of the search handler. -/
inductive SearchResult where
  | badRequest (status : Nat) (error message : String)
  | ok (query : String) (total : Nat) (results : List Product)
deriving DecidableEq, Repr

/-- The GET /api/products/search handler (routes/products.js):
`req.query.q?.toLowerCase()` is falsy (absent or empty) gives a direct
400 response; otherwise filter on the case-insensitive substring match
and answer with the echoed lowercased query, the count and the matches. -/
def searchHandler (ps : List Product) (q : Option String) : SearchResult :=
  match q with
  | none => .badRequest 400 "Search query is required"
      "Please provide a search query using the \"q\" parameter"
  | some s =>
    let query := lowerStr s
    if query == "" then
      .badRequest 400 "Search query is required"
        "Please provide a search query using the \"q\" parameter"
    else
      let results := ps.filter (searchMatch query)
      .ok query results.length results

/-- Price statistics of the stats handler. -/
structure PriceStats where
  highest : ℚ
  lowest : ℚ
  average : ℚ
deriving DecidableEq, Repr

/-- One step of the category count: `stats.categories[c] = (stats.categories[c] || 0) + 1`. -/
def bumpCategory (m : List (String × Nat)) (c : String) : List (String × Nat) :=
  match m with
  | [] => [(c, 1)]
  | (k, n) :: rest => if k == c then (k, n + 1) :: rest else (k, n) :: bumpCategory rest c

/-- Response of the stats handler. -/
structure StatsResult where
  totalProducts : Nat
  inStock : Nat
  outOfStock : Nat
  categories : List (String × Nat)
  priceStats : Option PriceStats
deriving Repr

/-- The GET /api/products/stats handler: total, inStock and outOfStock
counts, the per-category counts, and max/min/mean of the prices.  On the
empty collection the JS code produces -Infinity, Infinity and NaN, which
have no rational counterpart; that corner (explicitly left open by the
spec) is modelled as `none`. -/
def statsOf (ps : List Product) : StatsResult :=
  { totalProducts := ps.length
    inStock := (ps.filter (fun p => p.inStock)).length
    outOfStock := (ps.filter (fun p => !p.inStock)).length
    categories := ps.foldl (fun m p => bumpCategory m p.category) []
    priceStats :=
      match ps with
      | [] => none
      | q :: rest =>
        some { highest := (rest.map (fun p => p.price)).foldl max q.price
               lowest := (rest.map (fun p => p.price)).foldl min q.price
               average := (ps.map (fun p => p.price)).sum / (ps.length : ℚ) } }

/-- One segment of an Express route pattern. -/
inductive Seg where
  | lit (s : String)
  | param
deriving DecidableEq, Repr

/-- Whether one pattern segment matches one path segment. -/
def segMatches : Seg → String → Bool
  | .lit s, t => s == t
  | .param, _ => true

/-- Whether a whole pattern matches a whole path (Express patterns here
have no optional parts, so lengths must agree). -/
def patMatches : List Seg → List String → Bool
  | [], [] => true
  | [], _ :: _ => false
  | _ :: _, [] => false
  | sg :: pt, t :: ts => segMatches sg t && patMatches pt ts

/-- The GET routes of the product router, as tags. -/
inductive GetRoute where
  | root
  | byId
  | searchRoute
  | statsRoute
deriving DecidableEq, Repr

/-- The pattern each GET route was registered with. -/
def getRoutePattern : GetRoute → List Seg
  | .root => []
  | .byId => [.param]
  | .searchRoute => [.lit "search"]
  | .statsRoute => [.lit "stats"]

/-- The GET routes in registration order (routes/products.js registers
"/" first, then "/:id", and only later "/search" and "/stats"). -/
def getRoutesInOrder : List GetRoute := [.root, .byId, .searchRoute, .statsRoute]

/-- Express dispatch for a GET request: the first registered route whose
pattern matches the path wins. -/
def dispatchGET (segs : List String) : Option GetRoute :=
  getRoutesInOrder.find? (fun r => patMatches (getRoutePattern r) segs)

/-- Identifiers produced by `uuidv4()` are 36-character strings
(8-4-4-4-12 hex digits with four hyphens); only the length matters for
the claims. -/
def uuidShaped (s : String) : Bool := s.length == 36

/-- The store states reachable from the seed data through the mutating
handlers: create (with a uuid-shaped fresh identifier), update and
delete. -/
inductive Reachable : List Product → Prop where
  | seed : Reachable seedProducts
  | create (ps : List Product) (newId : String) (b : ReqBody)
      (h : Reachable ps) (hid : uuidShaped newId = true) :
      Reachable (createProduct ps newId b).1
  | update (ps : List Product) (pid : String) (patch : UpdatePatch)
      (ps2 : List Product) (pr : Product) (h : Reachable ps)
      (hu : updateList ps pid patch = .ok (ps2, pr)) : Reachable ps2
  | remove (ps : List Product) (pid : String) (ps2 : List Product) (pr : Product)
      (h : Reachable ps) (hd : deleteList ps pid = .ok (ps2, pr)) : Reachable ps2

/-- What a create body field must be for the name/description/category
check to succeed: a string that is non-empty after trimming. -/
def CreateGoodStr (v : Option JSVal) : Prop :=
  ∃ s, v = some (JSVal.str s) ∧ trimStr s ≠ ""

/-- What a create price must be for its check to succeed: a present,
truthy value that coerces to a number and whose parse, when it is a
number, is positive. -/
def CreateGoodPrice (v : Option JSVal) : Prop :=
  ∃ w, v = some w ∧ jsTruthy w = true ∧ (jsToNumber w).isSome = true ∧
    ∀ y, jsParseFloat w = some y → 0 < y

/-- What the update name/description/category check actually enforces: a
present and truthy value must be a string that is non-empty after
trimming (a present falsy value, such as the empty string, is skipped). -/
def UpdateOkStr (v : Option JSVal) : Prop :=
  ∀ w, v = some w → jsTruthy w = true → ∃ s, w = JSVal.str s ∧ trimStr s ≠ ""

/-- What the update price check actually enforces: a present and truthy
value must coerce to a number whose parse, when it is a number, is
positive (a present falsy value, such as the number 0, is skipped). -/
def UpdateOkPrice (v : Option JSVal) : Prop :=
  ∀ w, v = some w → jsTruthy w = true →
    (jsToNumber w).isSome = true ∧ ∀ y, jsParseFloat w = some y → 0 < y

/-- What the update inStock check enforces: any present value must be a
boolean. -/
def UpdateOkStock (v : Option JSVal) : Prop :=
  ∀ w, v = some w → ∃ c, w = JSVal.bool c

/-! Helper lemmas and claim theorems -/

theorem containsSub_iff (hay needle : List Char) :
    containsSub hay needle = true ↔ needle <:+: hay := by
  induction hay with
  | nil =>
    simp [containsSub, List.isPrefixOf_iff_prefix]
  | cons h t ih =>
    rw [containsSub]
    simp [List.isPrefixOf_iff_prefix, ih, List.infix_cons_iff]

theorem lowerStr_empty_iff (s : String) : lowerStr s = "" ↔ s = "" := by
  cases s with
  | mk data =>
    cases data <;> simp [lowerStr, String.toList, String.ext_iff]

theorem filter_and_split (f g : α → Bool) (l : List α) :
    (l.filter f).filter g = l.filter (fun a => f a && g a) := by
  induction l with
  | nil => rfl
  | cons h t ih =>
    by_cases hf : f h <;> by_cases hg : g h <;> simp [List.filter, hf, hg, ih]

theorem length_filter_add_not (f : α → Bool) (l : List α) :
    (l.filter f).length + (l.filter (fun a => !f a)).length = l.length := by
  induction l with
  | nil => rfl
  | cons h t ih =>
    by_cases hf : f h <;> simp [List.filter, hf] <;> omega

theorem jsSlice_sublist (l : List α) (a b : Int) : (jsSlice l a b).Sublist l := by
  unfold jsSlice
  exact (List.take_sublist _ _).trans (List.drop_sublist _ _)

theorem clampIdx_sub_le (len : Nat) (s L : Int) (hL : 0 ≤ L) :
    clampIdx len (s + L) - clampIdx len s ≤ L.toNat := by
  unfold clampIdx
  split <;> split <;> omega

theorem jsSlice_length_le (l : List α) (s L : Int) (hL : 0 ≤ L) :
    (jsSlice l s (s + L)).length ≤ L.toNat := by
  unfold jsSlice
  rw [List.length_take]
  have := clampIdx_sub_le l.length s L hL
  omega

theorem drop_min_length (l : List α) (n : Nat) : l.drop (min n l.length) = l.drop n := by
  by_cases h : n ≤ l.length
  · rw [Nat.min_eq_left h]
  · rw [Nat.min_eq_right (by omega), List.drop_length, List.drop_eq_nil_of_le (by omega)]

theorem clampIdx_nonneg (len : Nat) (i : Int) (hi : 0 ≤ i) :
    clampIdx len i = min i.toNat len := by
  unfold clampIdx
  split <;> omega

theorem clampIdx_past_end (len : Nat) (i : Int) (hi : 0 ≤ i)
    (h : (len : Int) ≤ i) : clampIdx len i = len := by
  unfold clampIdx
  split <;> omega

theorem jsSlice_nonneg_eq (l : List α) (s L : Int) (hs : 0 ≤ s) (hL : 0 ≤ L) :
    jsSlice l s (s + L) = (l.drop s.toNat).take L.toNat := by
  unfold jsSlice
  rw [clampIdx_nonneg _ _ hs, clampIdx_nonneg _ _ (by omega : (0:Int) ≤ s + L),
    drop_min_length, List.take_eq_take, List.length_drop]
  omega

theorem jsSlice_out_of_range (l : List α) (s e : Int) (hs : 0 ≤ s)
    (h : (l.length : Int) ≤ s) : jsSlice l s e = [] := by
  unfold jsSlice
  rw [clampIdx_past_end _ _ hs h, List.drop_length, List.take_nil]

theorem updateList_notFound (ps : List Product) (pid : String) (b : UpdatePatch)
    (h : ∀ p ∈ ps, p.id ≠ pid) : updateList ps pid b = .error (404, "Product not found") := by
  induction ps with
  | nil => rfl
  | cons p rest ih =>
    have hp : p.id ≠ pid := h p (by simp)
    rw [updateList]
    rw [if_neg (by simpa using hp), ih (fun q hq => h q (by simp [hq]))]

theorem updateList_found (pre : List Product) (p : Product) (post : List Product)
    (pid : String) (b : UpdatePatch) (hpre : ∀ q ∈ pre, q.id ≠ pid) (hp : p.id = pid) :
    updateList (pre ++ p :: post) pid b =
      .ok (pre ++ applyPatch p pid b :: post, applyPatch p pid b) := by
  induction pre with
  | nil =>
    simp only [List.nil_append]
    rw [updateList, if_pos (by simpa using hp)]
  | cons q rest ih =>
    have hq : q.id ≠ pid := hpre q (by simp)
    simp only [List.cons_append]
    rw [updateList, if_neg (by simpa using hq), ih (fun r hr => hpre r (by simp [hr]))]

theorem updateList_map_id (ps : List Product) (pid : String) (b : UpdatePatch)
    (ps2 : List Product) (pr : Product) (h : updateList ps pid b = .ok (ps2, pr)) :
    ps2.map (fun p => p.id) = ps.map (fun p => p.id) := by
  induction ps generalizing ps2 with
  | nil => simp [updateList] at h
  | cons p rest ih =>
    rw [updateList] at h
    by_cases hp : p.id == pid
    · rw [if_pos hp] at h
      have : ps2 = applyPatch p pid b :: rest := by
        cases h
        rfl
      subst this
      simp [applyPatch]
      exact (eq_of_beq hp).symm
    · rw [if_neg hp] at h
      cases hrec : updateList rest pid b with
      | error e => rw [hrec] at h; cases h
      | ok v =>
        rw [hrec] at h
        cases v with
        | mk rest2 merged =>
          cases h
          simp [ih rest2 hrec]

theorem deleteList_sublist (ps : List Product) (pid : String)
    (ps2 : List Product) (pr : Product) (h : deleteList ps pid = .ok (ps2, pr)) :
    ps2.Sublist ps := by
  induction ps generalizing ps2 with
  | nil => simp [deleteList] at h
  | cons p rest ih =>
    rw [deleteList] at h
    by_cases hp : p.id == pid
    · rw [if_pos hp] at h
      have h1 : rest = ps2 ∧ p = pr := by simpa using h
      rw [← h1.1]
      exact List.sublist_cons_self p rest
    · rw [if_neg hp] at h
      cases hrec : deleteList rest pid with
      | error e => rw [hrec] at h; cases h
      | ok v =>
        rw [hrec] at h
        cases v with
        | mk rest2 d =>
          cases h
          exact List.Sublist.cons₂ p (ih rest2 hrec)

theorem reachable_id_shape (ps : List Product) (h : Reachable ps) :
    ∀ p ∈ ps, p.id = "1" ∨ p.id = "2" ∨ p.id = "3" ∨ p.id.length = 36 := by
  induction h with
  | seed =>
    intro p hp
    simp [seedProducts] at hp
    rcases hp with rfl | rfl | rfl
    · exact Or.inl rfl
    · exact Or.inr (Or.inl rfl)
    · exact Or.inr (Or.inr (Or.inl rfl))
  | create ps newId b hr hid ih =>
    intro p hp
    simp [createProduct] at hp
    rcases hp with hp | rfl
    · exact ih p hp
    · right; right; right
      simp [mkProduct]
      simpa [uuidShaped] using hid
  | update ps pid patch ps2 pr hr hu ih =>
    intro p hp
    have hmap := updateList_map_id ps pid patch ps2 pr hu
    have : p.id ∈ ps2.map (fun p => p.id) := List.mem_map_of_mem _ hp
    rw [hmap] at this
    obtain ⟨q, hq, hqid⟩ := List.mem_map.mp this
    rw [← hqid]
    exact ih q hq
  | remove ps pid ps2 pr hr hd ih =>
    intro p hp
    exact ih p ((deleteList_sublist ps pid ps2 pr hd).subset hp)

theorem reachable_no_route_ids (ps : List Product) (h : Reachable ps) :
    ∀ p ∈ ps, p.id ≠ "search" ∧ p.id ≠ "stats" := by
  intro p hp
  rcases reachable_id_shape ps h p hp with h1 | h1 | h1 | h1 <;>
    exact ⟨fun hc => by rw [hc] at h1; exact absurd h1 (by decide),
      fun hc => by rw [hc] at h1; exact absurd h1 (by decide)⟩

theorem find_none_of_all_ne (ps : List Product) (pid : String)
    (h : ∀ p ∈ ps, p.id ≠ pid) : ps.find? (fun p => p.id == pid) = none := by
  apply List.find?_eq_none.mpr
  intro p hp
  simpa using h p hp

theorem getById_404 (ps : List Product) (pid : String)
    (h : ∀ p ∈ ps, p.id ≠ pid) : getProductById ps pid = .error (404, "Product not found") := by
  rw [getProductById, find_none_of_all_ne ps pid h]

theorem dispatchGET_single (s : String) : dispatchGET [s] = some .byId := by
  simp [dispatchGET, getRoutesInOrder, List.find?, getRoutePattern, patMatches, segMatches]

theorem dispatchGET_never_search_stats (segs : List String) (r : GetRoute)
    (h : dispatchGET segs = some r) : r ≠ .searchRoute ∧ r ≠ .statsRoute := by
  match segs with
  | [] =>
    have hr2 : GetRoute.root = r := by
      simpa [dispatchGET, getRoutesInOrder, List.find?, getRoutePattern, patMatches] using h
    rw [← hr2]
    exact ⟨by decide, by decide⟩
  | [s] =>
    have hr2 : GetRoute.byId = r := by
      rw [dispatchGET_single s] at h
      simpa using h
    rw [← hr2]
    exact ⟨by decide, by decide⟩
  | s :: t :: rest =>
    exfalso
    simp [dispatchGET, getRoutesInOrder, List.find?, getRoutePattern, patMatches, segMatches] at h

/-- C2: the route GET /:id is registered before GET /search and GET /stats,
so one-segment paths such as /products/search and /products/stats are
dispatched to the get-by-id handler with id "search" or "stats"; no
reachable store state holds such an identifier, so both requests yield a
404 "Product not found", and the search and stats handlers are never
selected by the router for any path. -/
theorem routeShadowing_spec (ps : List Product) (h : Reachable ps) :
    dispatchGET ["search"] = some GetRoute.byId ∧
    dispatchGET ["stats"] = some GetRoute.byId ∧
    getProductById ps "search" = .error (404, "Product not found") ∧
    getProductById ps "stats" = .error (404, "Product not found") ∧
    (∀ segs r, dispatchGET segs = some r → r ≠ GetRoute.searchRoute ∧ r ≠ GetRoute.statsRoute) := by
  refine ⟨dispatchGET_single "search", dispatchGET_single "stats", ?_, ?_,
    dispatchGET_never_search_stats⟩
  · exact getById_404 ps "search" (fun p hp => (reachable_no_route_ids ps h p hp).1)
  · exact getById_404 ps "stats" (fun p hp => (reachable_no_route_ids ps h p hp).2)

/-- Witness for the routing claim at the seed state. -/
theorem routeShadowing_witness :
    getProductById seedProducts "search" = .error (404, "Product not found") :=
  (routeShadowing_spec seedProducts Reachable.seed).2.2.1

/-- C10: the stats counters always satisfy inStock + outOfStock =
totalProducts, with inStock counting the in-stock products, outOfStock
the complement and totalProducts the size of the unfiltered collection. -/
theorem stats_spec (ps : List Product) :
    (statsOf ps).inStock + (statsOf ps).outOfStock = (statsOf ps).totalProducts ∧
    (statsOf ps).inStock = (ps.filter (fun p => p.inStock)).length ∧
    (statsOf ps).outOfStock = (ps.filter (fun p => !p.inStock)).length ∧
    (statsOf ps).totalProducts = ps.length := by
  refine ⟨?_, rfl, rfl, rfl⟩
  exact length_filter_add_not (fun p => p.inStock) ps

/-- C4: updating an existing id merges the patch over the stored record in
place (patch fields overwrite, absent fields are retained, the identifier
is forced back to the original even when the patch carries an id field,
and the record keeps its position); an absent id gives a 404 error. -/
theorem update_spec (ps : List Product) (pid : String) (b : UpdatePatch) :
    ((∀ p ∈ ps, p.id ≠ pid) → updateList ps pid b = .error (404, "Product not found")) ∧
    (∀ pre p post, ps = pre ++ p :: post → (∀ q ∈ pre, q.id ≠ pid) → p.id = pid →
      updateList ps pid b = .ok (pre ++ applyPatch p pid b :: post, applyPatch p pid b) ∧
      (applyPatch p pid b).id = p.id ∧
      (applyPatch p pid b).name = b.name.getD p.name ∧
      (applyPatch p pid b).description = b.description.getD p.description ∧
      (applyPatch p pid b).price = b.price.getD p.price ∧
      (applyPatch p pid b).category = b.category.getD p.category ∧
      (applyPatch p pid b).inStock = b.inStock.getD p.inStock ∧
      (∀ other : Option String, (applyPatch p pid { b with id := other }).id = p.id) ∧
      (pre ++ applyPatch p pid b :: post).length = ps.length) := by
  constructor
  · exact updateList_notFound ps pid b
  · intro pre p post hps hpre hp
    subst hps
    refine ⟨updateList_found pre p post pid b hpre hp, ?_, rfl, rfl, rfl, rfl, rfl, ?_, by simp⟩
    · simp [applyPatch, hp]
    · intro other
      simp [applyPatch, hp]

/-- Witness for the update claim: renaming seed product 1 in place. -/
theorem update_spec_witness :
    updateList seedProducts "1" { name := some "Updated" } =
      .ok ([applyPatch product1 "1" { name := some "Updated" }, product2, product3],
        applyPatch product1 "1" { name := some "Updated" }) :=
  ((update_spec seedProducts "1" { name := some "Updated" }).2 [] product1 [product2, product3]
    rfl (by simp) rfl).1

/-- C5: creating with a fresh identifier appends the new record at the end,
answers with the stored record, and preserves identifier uniqueness; the
update and delete operations preserve uniqueness as well. -/
theorem create_spec (ps : List Product) (b : ReqBody) (newId : String)
    (hfresh : newId ∉ ps.map (fun p => p.id)) (hnd : (ps.map (fun p => p.id)).Nodup) :
    (createProduct ps newId b).1 = ps ++ [mkProduct newId b] ∧
    (createProduct ps newId b).2 = mkProduct newId b ∧
    (mkProduct newId b).id = newId ∧
    (∀ p ∈ ps, p.id ≠ newId) ∧
    ((createProduct ps newId b).1.map (fun p => p.id)).Nodup ∧
    (∀ pid patch ps2 pr, updateList ps pid patch = .ok (ps2, pr) →
      (ps2.map (fun p => p.id)).Nodup) ∧
    (∀ pid ps2 pr, deleteList ps pid = .ok (ps2, pr) →
      (ps2.map (fun p => p.id)).Nodup) := by
  refine ⟨rfl, rfl, rfl, ?_, ?_, ?_, ?_⟩
  · intro p hp hc
    exact hfresh (hc ▸ List.mem_map_of_mem _ hp)
  · simp only [createProduct, List.map_append, List.map_cons, List.map_nil]
    rw [List.nodup_append]
    refine ⟨hnd, List.nodup_singleton _, ?_⟩
    intro a ha hb
    simp only [mkProduct, List.mem_singleton] at hb
    subst hb
    exact hfresh ha
  · intro pid patch ps2 pr hu
    rw [updateList_map_id ps pid patch ps2 pr hu]
    exact hnd
  · intro pid ps2 pr hd
    exact hnd.sublist ((deleteList_sublist ps pid ps2 pr hd).map _)

/-- Witness for the create claim at the seed state with a uuid-shaped id. -/
theorem create_spec_witness :
    ((createProduct seedProducts "00000000-0000-4000-8000-000000000000" {}).1.map
      (fun p => p.id)).Nodup :=
  (create_spec seedProducts {} "00000000-0000-4000-8000-000000000000"
    (by decide) (by decide)).2.2.2.2.1

theorem configuredKey_ne_empty (env : Option String) : configuredKey env ≠ "" := by
  cases env with
  | none => decide
  | some v =>
    rw [configuredKey]
    by_cases hv : v == ""
    · rw [if_pos hv]; decide
    · rw [if_neg hv]
      simpa using hv

/-- C9 counterexample: an empty presented credential differs from the
configured secret, yet the middleware answers "API key is required"
rather than "Invalid API key" (the emptiness test runs first). -/
theorem authenticate_cex :
    authenticate none (some "") = .err 401 "API key is required" ∧
    ("" : String) ≠ configuredKey none := ⟨rfl, by decide⟩

/-- C9 (amended): a missing or empty credential gives 401 "API key is
required"; a non-empty credential different from the configured secret
gives 401 "Invalid API key"; the secret itself (always non-empty) passes
with no side effect. -/
theorem authenticate_spec (env : Option String) (apiKey : Option String) :
    ((apiKey = none ∨ apiKey = some "") →
      authenticate env apiKey = .err 401 "API key is required") ∧
    (∀ k, apiKey = some k → k ≠ "" → k ≠ configuredKey env →
      authenticate env apiKey = .err 401 "Invalid API key") ∧
    (∀ k, apiKey = some k → k = configuredKey env →
      authenticate env apiKey = .ok) ∧
    configuredKey env ≠ "" := by
  refine ⟨?_, ?_, ?_, configuredKey_ne_empty env⟩
  · rintro (rfl | rfl) <;> rfl
  · rintro k rfl hk hne
    rw [authenticate, if_neg (by simpa using hk), if_pos (by simpa using hne)]
  · rintro k rfl hk
    rw [authenticate, if_neg (by simpa [hk] using configuredKey_ne_empty env),
      if_neg (by simpa using hk)]

/-- Witness for the amended authentication claim: the default secret. -/
theorem authenticate_spec_witness :
    authenticate none (some "secret-key-123") = .ok :=
  (authenticate_spec none (some "secret-key-123")).2.2.1 "secret-key-123" rfl rfl

/-- C1: the search handler rejects a missing or empty query with a direct
400 response; otherwise it answers 200-shaped data echoing the lowercased
query, with the matches in original collection order, the total equal to
their number, and every match containing the query case-insensitively in
its name or description. -/
theorem search_spec (ps : List Product) (q : Option String) :
    ((q = none ∨ q = some "") → searchHandler ps q = .badRequest 400 "Search query is required"
      "Please provide a search query using the \"q\" parameter") ∧
    (∀ s, q = some s → s ≠ "" →
      searchHandler ps q = .ok (lowerStr s) (ps.filter (searchMatch (lowerStr s))).length
        (ps.filter (searchMatch (lowerStr s))) ∧
      (ps.filter (searchMatch (lowerStr s))).Sublist ps ∧
      (∀ p ∈ ps.filter (searchMatch (lowerStr s)),
        (lowerStr s).toList <:+: (lowerStr p.name).toList ∨
        (lowerStr s).toList <:+: (lowerStr p.description).toList)) := by
  constructor
  · rintro (rfl | rfl) <;> rfl
  · rintro s rfl hs
    have hlow : (lowerStr s == "") = false := by
      simpa using fun hc => hs ((lowerStr_empty_iff s).mp hc)
    refine ⟨?_, List.filter_sublist ps, ?_⟩
    · rw [searchHandler]
      simp [hlow]
    · intro p hp
      have hm := (List.mem_filter.mp hp).2
      rw [searchMatch] at hm
      rcases Bool.or_eq_true_iff.mp hm with h2 | h2
      · exact Or.inl ((containsSub_iff _ _).mp h2)
      · exact Or.inr ((containsSub_iff _ _).mp h2)

/-- Witness for the search claim: an uppercase query matching the laptop. -/
theorem search_spec_witness :
    searchHandler seedProducts (some "LAP") =
      .ok (lowerStr "LAP") (seedProducts.filter (searchMatch (lowerStr "LAP"))).length
        (seedProducts.filter (searchMatch (lowerStr "LAP"))) :=
  ((search_spec seedProducts (some "LAP")).2 "LAP" rfl (by decide)).1

theorem badStrCreate_false_iff (v : Option JSVal) :
    badStrCreate v = false ↔ CreateGoodStr v := by
  cases v with
  | none => simp [badStrCreate, CreateGoodStr]
  | some w =>
    cases w with
    | str s =>
      simp [badStrCreate, CreateGoodStr, jsTruthy, isStringVal, strOfJS]
      intro h2 hc
      subst hc
      exact h2 rfl
    | num x => simp [badStrCreate, CreateGoodStr, isStringVal]
    | bool c => simp [badStrCreate, CreateGoodStr, isStringVal]
    | null => simp [badStrCreate, CreateGoodStr, isStringVal]

theorem badPriceCreate_false_iff (v : Option JSVal) :
    badPriceCreate v = false ↔ CreateGoodPrice v := by
  cases v with
  | none => simp [badPriceCreate, CreateGoodPrice]
  | some w =>
    cases hpf : jsParseFloat w with
    | none =>
      simp [badPriceCreate, CreateGoodPrice, hpf]
    | some x =>
      simp [badPriceCreate, CreateGoodPrice, hpf]
      rw [and_assoc]

theorem notCreateGoodStr_iff (v : Option JSVal) :
    (¬ CreateGoodStr v) ↔ badStrCreate v = true := by
  rw [← badStrCreate_false_iff]
  cases badStrCreate v <;> simp

theorem notCreateGoodPrice_iff (v : Option JSVal) :
    (¬ CreateGoodPrice v) ↔ badPriceCreate v = true := by
  rw [← badPriceCreate_false_iff]
  cases badPriceCreate v <;> simp

/-- C6: the create validator checks the four fields independently,
appending one distinct message per failing field in source order, and the
middleware passes exactly when the list is empty, otherwise failing with
400 "Validation failed" and the full list; an empty body collects all
four messages. -/
theorem validateProduct_spec (b : ReqBody) :
    (validateProduct b).Sublist [nameReqMsg, descReqMsg, priceReqMsg, catReqMsg] ∧
    [nameReqMsg, descReqMsg, priceReqMsg, catReqMsg].Nodup ∧
    (nameReqMsg ∈ validateProduct b ↔ ¬ CreateGoodStr b.name) ∧
    (descReqMsg ∈ validateProduct b ↔ ¬ CreateGoodStr b.description) ∧
    (priceReqMsg ∈ validateProduct b ↔ ¬ CreateGoodPrice b.price) ∧
    (catReqMsg ∈ validateProduct b ↔ ¬ CreateGoodStr b.category) ∧
    (validateProduct b = [] ↔ (CreateGoodStr b.name ∧ CreateGoodStr b.description ∧
      CreateGoodPrice b.price ∧ CreateGoodStr b.category)) ∧
    (validateProduct b = [] → runValidateProduct b = .pass) ∧
    (validateProduct b ≠ [] →
      runValidateProduct b = .fail 400 "Validation failed" (validateProduct b)) ∧
    validateProduct {} = [nameReqMsg, descReqMsg, priceReqMsg, catReqMsg] := by
  simp only [notCreateGoodStr_iff, notCreateGoodPrice_iff, ← badStrCreate_false_iff,
    ← badPriceCreate_false_iff]
  cases hbn : badStrCreate b.name <;> cases hbd : badStrCreate b.description <;>
    cases hbp : badPriceCreate b.price <;> cases hbc : badStrCreate b.category <;>
      simp [validateProduct, runValidateProduct, hbn, hbd, hbp, hbc] <;> decide

theorem badStrUpdate_false_iff (v : Option JSVal) :
    badStrUpdate v = false ↔ UpdateOkStr v := by
  cases v with
  | none => simp [badStrUpdate, UpdateOkStr]
  | some w =>
    cases w with
    | str s =>
      simp [badStrUpdate, UpdateOkStr, jsTruthy, isStringVal, strOfJS]
      try tauto
    | num x => simp [badStrUpdate, UpdateOkStr, jsTruthy, isStringVal]
    | bool c => simp [badStrUpdate, UpdateOkStr, jsTruthy, isStringVal]
    | null => simp [badStrUpdate, UpdateOkStr, jsTruthy, isStringVal]

theorem badPriceUpdate_false_iff (v : Option JSVal) :
    badPriceUpdate v = false ↔ UpdateOkPrice v := by
  cases v with
  | none => simp [badPriceUpdate, UpdateOkPrice]
  | some w =>
    cases hpf : jsParseFloat w with
    | none =>
      simp [badPriceUpdate, UpdateOkPrice, hpf]
      try tauto
    | some x =>
      simp [badPriceUpdate, UpdateOkPrice, hpf]
      try tauto

theorem badStockUpdate_false_iff (v : Option JSVal) :
    badStockUpdate v = false ↔ UpdateOkStock v := by
  cases v with
  | none => simp [badStockUpdate, UpdateOkStock]
  | some w =>
    cases w <;> simp [badStockUpdate, UpdateOkStock, isBoolVal]

theorem notUpdateOkStr_iff (v : Option JSVal) :
    (¬ UpdateOkStr v) ↔ badStrUpdate v = true := by
  rw [← badStrUpdate_false_iff]
  cases badStrUpdate v <;> simp

theorem notUpdateOkPrice_iff (v : Option JSVal) :
    (¬ UpdateOkPrice v) ↔ badPriceUpdate v = true := by
  rw [← badPriceUpdate_false_iff]
  cases badPriceUpdate v <;> simp

theorem notUpdateOkStock_iff (v : Option JSVal) :
    (¬ UpdateOkStock v) ↔ badStockUpdate v = true := by
  rw [← badStockUpdate_false_iff]
  cases badStockUpdate v <;> simp

/-- C3 counterexample: a present price of exactly 0 and a present empty
name are both falsy, so the update validator skips their checks and
accepts the bodies, although the claim requires a present price to be
positive and a present name to be non-empty after trimming. -/
theorem validateProductUpdate_cex :
    validateProductUpdate { price := some (JSVal.num 0) } = [] ∧
    validateProductUpdate { name := some (JSVal.str "") } = [] ∧
    ¬ (0 < (0 : ℚ)) ∧ trimStr "" = "" := by
  refine ⟨rfl, rfl, by norm_num, rfl⟩

/-- C3 (amended): the update validator accepts absent fields; a present
field is checked only when truthy, and then name, description and
category must be strings that are non-empty after trimming and price must
coerce to a number whose parse is positive; present falsy values (empty
strings, the number 0) are accepted unchecked; inStock, whenever present,
must be a boolean; all violations accumulate without short-circuiting in
source field order. -/
theorem validateProductUpdate_spec (b : ReqBody) :
    (validateProductUpdate b).Sublist
      [nameUpdMsg, descUpdMsg, priceUpdMsg, catUpdMsg, stockUpdMsg] ∧
    [nameUpdMsg, descUpdMsg, priceUpdMsg, catUpdMsg, stockUpdMsg].Nodup ∧
    (nameUpdMsg ∈ validateProductUpdate b ↔ ¬ UpdateOkStr b.name) ∧
    (descUpdMsg ∈ validateProductUpdate b ↔ ¬ UpdateOkStr b.description) ∧
    (priceUpdMsg ∈ validateProductUpdate b ↔ ¬ UpdateOkPrice b.price) ∧
    (catUpdMsg ∈ validateProductUpdate b ↔ ¬ UpdateOkStr b.category) ∧
    (stockUpdMsg ∈ validateProductUpdate b ↔ ¬ UpdateOkStock b.inStock) ∧
    (validateProductUpdate b = [] ↔ (UpdateOkStr b.name ∧ UpdateOkStr b.description ∧
      UpdateOkPrice b.price ∧ UpdateOkStr b.category ∧ UpdateOkStock b.inStock)) ∧
    (validateProductUpdate b = [] → runValidateProductUpdate b = .pass) ∧
    (validateProductUpdate b ≠ [] →
      runValidateProductUpdate b = .fail 400 "Validation failed" (validateProductUpdate b)) ∧
    validateProductUpdate {} = [] := by
  simp only [notUpdateOkStr_iff, notUpdateOkPrice_iff, notUpdateOkStock_iff,
    ← badStrUpdate_false_iff, ← badPriceUpdate_false_iff, ← badStockUpdate_false_iff]
  cases hbn : badStrUpdate b.name <;> cases hbd : badStrUpdate b.description <;>
    cases hbp : badPriceUpdate b.price <;> cases hbc : badStrUpdate b.category <;>
      cases hbs : badStockUpdate b.inStock <;>
        simp [validateProductUpdate, runValidateProductUpdate, hbn, hbd, hbp, hbc, hbs] <;>
          decide

/-- Witness for the amended update-validation claim: the empty body
passes unchecked. -/
theorem validateProductUpdate_spec_witness :
    validateProductUpdate {} = [] :=
  (validateProductUpdate_spec {}).2.2.2.2.2.2.2.2.2.2

/-- Witness for the create-validation claim: the empty body collects all
four messages. -/
theorem validateProduct_spec_witness :
    validateProduct {} = [nameReqMsg, descReqMsg, priceReqMsg, catReqMsg] :=
  (validateProduct_spec {}).2.2.2.2.2.2.2.2.2

theorem filter_and_comm (f g : α → Bool) (l : List α) :
    l.filter (fun a => f a && g a) = l.filter (fun a => g a && f a) := by
  induction l with
  | nil => rfl
  | cons h t ih =>
    by_cases hf : f h <;> by_cases hg : g h <;> simp [List.filter, hf, hg, ih]

theorem filtered_eq_listPred (q : ListQuery) (ps : List Product) :
    applyStockFilter q.inStock (applyCategoryFilter q.category ps) =
      ps.filter (fun p => listPred q p) := by
  rcases q with ⟨qc, qs, qp, ql⟩
  cases qc with
  | none =>
    cases qs with
    | none => simp [applyCategoryFilter, applyStockFilter, listPred]
    | some s =>
      by_cases hse : s == "" <;>
        simp [applyCategoryFilter, applyStockFilter, listPred, hse]
  | some c =>
    by_cases hce : c == ""
    · cases qs with
      | none => simp [applyCategoryFilter, applyStockFilter, listPred, hce]
      | some s =>
        by_cases hse : s == "" <;>
          simp [applyCategoryFilter, applyStockFilter, listPred, hce, hse]
    · cases qs with
      | none => simp [applyCategoryFilter, applyStockFilter, listPred, hce]
      | some s =>
        by_cases hse : s == ""
        · simp [applyCategoryFilter, applyStockFilter, listPred, hce, hse]
        · simp [applyCategoryFilter, applyStockFilter, listPred, hce, hse, filter_and_split]
          exact filter_and_comm _ _ ps

/-- C7: the list endpoint filters are equivalent to one pass of the
combined predicate; the filtered collection is an order-preserving
sublist of the store holding exactly the products that satisfy every
supplied filter; the reported total is its size before pagination; and
the returned data slice is an order-preserving selection of matching
products. -/
theorem list_filter_spec (q : ListQuery) (ps : List Product) :
    applyStockFilter q.inStock (applyCategoryFilter q.category ps) =
      ps.filter (fun p => listPred q p) ∧
    (ps.filter (fun p => listPred q p)).Sublist ps ∧
    (∀ p, p ∈ ps.filter (fun p2 => listPred q p2) ↔ p ∈ ps ∧ listPred q p = true) ∧
    (listHandler q ps).total = (ps.filter (fun p => listPred q p)).length ∧
    (listHandler q ps).data.Sublist (ps.filter (fun p => listPred q p)) ∧
    (listHandler q ps).data.Sublist ps ∧
    (∀ p ∈ (listHandler q ps).data, listPred q p = true) := by
  have hfe := filtered_eq_listPred q ps
  have hdata : (listHandler q ps).data =
      jsSlice (applyStockFilter q.inStock (applyCategoryFilter q.category ps))
        ((orDefault q.page 1 - 1) * orDefault q.limit 10)
        ((orDefault q.page 1 - 1) * orDefault q.limit 10 + orDefault q.limit 10) := rfl
  have hsub : (listHandler q ps).data.Sublist (ps.filter (fun p => listPred q p)) := by
    rw [hdata, hfe]
    exact jsSlice_sublist _ _ _
  refine ⟨hfe, List.filter_sublist ps, fun p => List.mem_filter, ?_, hsub, ?_, ?_⟩
  · show (applyStockFilter q.inStock (applyCategoryFilter q.category ps)).length = _
    rw [hfe]
  · exact hsub.trans (List.filter_sublist ps)
  · intro p hp
    exact (List.mem_filter.mp (hsub.subset hp)).2

/-- Witness for the list-filter claim: the kitchen category filter on the
seed data. -/
theorem list_filter_spec_witness :
    applyStockFilter ({ category := some "kitchen" } : ListQuery).inStock
      (applyCategoryFilter ({ category := some "kitchen" } : ListQuery).category seedProducts) =
      seedProducts.filter (fun p => listPred { category := some "kitchen" } p) :=
  (list_filter_spec { category := some "kitchen" } seedProducts).1

/-- C8 counterexample: a request with limit -1 yields a data slice of
length 2 on the seed store (slice with a negative end index keeps all but
the last element), so the data length does not stay below the limit. -/
theorem pagination_cex :
    (listHandler { limit := some (-1) } seedProducts).limit = -1 ∧
    (listHandler { limit := some (-1) } seedProducts).data.length = 2 ∧
    ¬ (((listHandler { limit := some (-1) } seedProducts).data.length : Int) ≤
        (listHandler { limit := some (-1) } seedProducts).limit) := by
  refine ⟨rfl, rfl, ?_⟩
  show ¬ ((2 : Int) ≤ -1)
  decide

/-- C8 (amended): whenever the effective limit is positive (any request
whose limit parameter is absent, zero, NaN, or positive), pagination is
1-based with defaults page=1 and limit=10, totalPages is the ceiling of
total/limit, the data slice never exceeds the limit, and a page at or
past the end of the range yields an empty slice rather than an error.  A
negative limit parameter escapes the length bound, as the counterexample
shows. -/
theorem pagination_spec (q : ListQuery) (ps : List Product)
    (hl : 0 < orDefault q.limit 10) :
    (q.page = none → (listHandler q ps).page = 1) ∧
    (q.limit = none → (listHandler q ps).limit = 10) ∧
    (listHandler q ps).page = orDefault q.page 1 ∧
    (listHandler q ps).limit = orDefault q.limit 10 ∧
    (listHandler q ps).totalPages =
      ⌈((listHandler q ps).total : ℚ) / ((listHandler q ps).limit : ℚ)⌉ ∧
    ((listHandler q ps).data.length : Int) ≤ (listHandler q ps).limit ∧
    (1 ≤ orDefault q.page 1 →
      (listHandler q ps).data =
        ((applyStockFilter q.inStock (applyCategoryFilter q.category ps)).drop
          ((orDefault q.page 1 - 1) * orDefault q.limit 10).toNat).take
          (orDefault q.limit 10).toNat) ∧
    (1 ≤ orDefault q.page 1 →
      ((listHandler q ps).total : Int) ≤ (orDefault q.page 1 - 1) * orDefault q.limit 10 →
      (listHandler q ps).data = []) := by
  have hdata : (listHandler q ps).data =
      jsSlice (applyStockFilter q.inStock (applyCategoryFilter q.category ps))
        ((orDefault q.page 1 - 1) * orDefault q.limit 10)
        ((orDefault q.page 1 - 1) * orDefault q.limit 10 + orDefault q.limit 10) := rfl
  have htotal : (listHandler q ps).total =
      (applyStockFilter q.inStock (applyCategoryFilter q.category ps)).length := rfl
  have hlim : (listHandler q ps).limit = orDefault q.limit 10 := rfl
  refine ⟨?_, ?_, rfl, rfl, rfl, ?_, ?_, ?_⟩
  · intro hp
    show orDefault q.page 1 = 1
    rw [hp]
    rfl
  · intro hlq
    show orDefault q.limit 10 = 10
    rw [hlq]
    rfl
  · rw [hdata, hlim]
    have hle := jsSlice_length_le
      (applyStockFilter q.inStock (applyCategoryFilter q.category ps))
      ((orDefault q.page 1 - 1) * orDefault q.limit 10) (orDefault q.limit 10) (by omega)
    omega
  · intro hP
    rw [hdata]
    exact jsSlice_nonneg_eq _ _ _ (mul_nonneg (by omega) (by omega)) (by omega)
  · intro hP hout
    rw [hdata]
    refine jsSlice_out_of_range _ _ _ (mul_nonneg (by omega) (by omega)) ?_
    rw [htotal] at hout
    exact hout

/-- Witness for the amended pagination claim: the defaulted request on the
seed store respects the limit bound. -/
theorem pagination_spec_witness :
    ((listHandler {} seedProducts).data.length : Int) ≤ (listHandler {} seedProducts).limit :=
  (pagination_spec {} seedProducts (by decide)).2.2.2.2.2.1
